import Mathlib

/-!
Shallow embedding of the `funapis-response` Python library
(`src/funapis_response/`) and verification of the frozen claims about it.

Conventions of the embedding:
* Python `None`-able values become `Option`; the `data : Any` field of a
  response becomes the inductive `PyValue` below, with Python `None`
  represented by `PyValue.none`.
* Python dictionaries produced by `to_dict` become insertion-ordered
  association lists `List (String × PyValue)`.
* UUIDs and datetimes only ever reach the serialized output through
  `str(uuid)` / `datetime.isoformat()`, so they are modelled by their string
  rendering; a datetime also carries the `tzinfo is not None` bit used by
  `PayloadValidator.validate_datetime_format`.
* Code that raises `ValueError` is modelled with `Except String`.
* Python truthiness (`if self.data:` …) is modelled explicitly by
  `PyValue.truthy` / `pyOptStrTruthy`, following Python semantics for each
  constructor.
-/

/-- Embeds `funapis_response.enums.types.ErrorSeverity`. -/
inductive ErrorSeverity
  | INFO
  | WARNING
  | ERROR
  | FATAL
deriving DecidableEq, Repr

/-- Embeds `funapis_response.enums.types.SortDirection`; `value` is the
string payload of each enum member. -/
inductive SortDirection
  | ASC
  | DESC
deriving DecidableEq, Repr

/-- Embeds `funapis_response.enums.types.UserLevel`. -/
inductive UserLevel
  | GENERAL_USER
  | OPERATOR
  | ADMIN
  | DEVELOPER
deriving DecidableEq, Repr

/-- The string `value` of a `SortDirection` member. -/
def SortDirection.value : SortDirection → String
  | .ASC => "ASC"
  | .DESC => "DESC"

/-- A Python value as it can appear in the `data : Any` slot of a response
and in serialized dictionaries.  `PyValue.none` is Python `None`. -/
inductive PyValue
  | none
  | bool (b : Bool)
  | int (n : Int)
  | str (s : String)
  | list (xs : List PyValue)
  | dict (kvs : List (String × PyValue))

/-- Python `is None` test on a `PyValue`. -/
def PyValue.isNone : PyValue → Bool
  | PyValue.none => true
  | _ => false

/-- Python truthiness (`bool(v)`) of a `PyValue`: `None`, `False`, `0`, the
empty string, empty list and empty dict are falsy, everything else truthy. -/
def PyValue.truthy : PyValue → Bool
  | PyValue.none => false
  | PyValue.bool b => b
  | PyValue.int n => n != 0
  | PyValue.str s => !(s == "")
  | PyValue.list xs => !xs.isEmpty
  | PyValue.dict kvs => !kvs.isEmpty

/-- Python truthiness of an `Optional[str]`: `None` and `""` are falsy. -/
def pyOptStrTruthy : Option String → Bool
  | Option.none => false
  | some s => !(s == "")

/-- A Python datetime, modelled by its `isoformat()` rendering plus the
`tzinfo is not None` bit. -/
structure PyDatetime where
  iso : String
  aware : Bool
deriving DecidableEq, Repr

/-- Embeds the frozen dataclass `OrderingPayload`
(`src/funapis_response/core/payload.py`). -/
structure OrderingPayload where
  property : String
  direction : SortDirection := SortDirection.ASC
deriving DecidableEq, Repr

/-- Embeds `OrderingPayload.to_dict`. -/
def OrderingPayload.to_dict (o : OrderingPayload) : List (String × PyValue) :=
  [("property", PyValue.str o.property), ("direction", PyValue.str o.direction.value)]

/-- Embeds the frozen dataclass `PagingPayload`
(`src/funapis_response/core/payload.py`). -/
structure PagingPayload where
  page : Int
  page_size : Int
  total_elements : Int
  total_pages : Int
  orders : List OrderingPayload := []
deriving DecidableEq, Repr

/-- Embeds `PagingPayload.to_dict`. -/
def PagingPayload.to_dict (p : PagingPayload) : List (String × PyValue) :=
  [("page", PyValue.int p.page),
   ("pageSize", PyValue.int p.page_size),
   ("totalElements", PyValue.int p.total_elements),
   ("totalPages", PyValue.int p.total_pages),
   ("orders", PyValue.list (p.orders.map (fun o => PyValue.dict o.to_dict)))]

/-- Embeds the frozen dataclass `ResponsePayload`
(`src/funapis_response/core/payload.py`).  `message_id` is the string
rendering of the UUID; `stack_trace` embeds the private `_stack_trace`. -/
structure ResponsePayload where
  message_id : String
  message_datetime : PyDatetime
  error_code : String
  error_desc : String
  data : PyValue := PyValue.none
  paging : Option PagingPayload := Option.none
  stack_trace : Option String := Option.none

/-- Embeds `ResponsePayload.to_dict(user_level)`: the four mandatory keys,
then `data` if `data is not None`, then `paging` if present, then
`stackTrace` if `self._stack_trace` is truthy AND the level is exactly
`DEVELOPER` (`if self._stack_trace and user_level == UserLevel.DEVELOPER`). -/
def ResponsePayload.to_dict (p : ResponsePayload) (user_level : UserLevel) :
    List (String × PyValue) :=
  [("messageId", PyValue.str p.message_id),
   ("messageDatetime", PyValue.str p.message_datetime.iso),
   ("errorCode", PyValue.str p.error_code),
   ("errorDesc", PyValue.str p.error_desc)]
  ++ (if p.data.isNone then [] else [("data", p.data)])
  ++ (match p.paging with
      | some pg => [("paging", PyValue.dict pg.to_dict)]
      | Option.none => [])
  ++ (if pyOptStrTruthy p.stack_trace ∧ user_level = UserLevel.DEVELOPER
      then [("stackTrace", PyValue.str (p.stack_trace.getD ""))]
      else [])

/-- Whether a serialized dictionary contains a key (`"k" in d`). -/
def hasKey (d : List (String × PyValue)) (k : String) : Bool :=
  d.any (fun kv => kv.1 == k)

/-- Whether a character matches Python regex `\d`.  Python `\d` matches any
Unicode decimal digit (category Nd); all error codes in this repository are
ASCII, and the embedding restricts `\d` to the ASCII digits `0`-`9`. -/
def pyIsDigit (c : Char) : Bool := c.isDigit

/-- Python end-of-pattern anchor `$` under `re.match`: it matches at the end
of the string, or just before one trailing newline. -/
def pyDollarAnchor : List Char → Bool
  | [] => true
  | [c] => c == '\x0a'
  | _ => false

/-- Matches `\d` exactly `n` more times and then the `$` anchor. -/
def nDigitsThenEnd : Nat → List Char → Bool
  | 0, cs => pyDollarAnchor cs
  | _ + 1, [] => false
  | n + 1, c :: cs => pyIsDigit c && nDigitsThenEnd n cs

/-- Embeds `bool(re.match(r..., error_code))` with the pattern
`FUN` + 9 `\d` + `$` used by `PayloadValidator.validate_error_code`
(`src/funapis_response/core/validator.py`): literal `FUN`, nine digits,
then the `$` anchor (which in Python also accepts one trailing newline). -/
def validate_error_code (error_code : String) : Bool :=
  match error_code.data with
  | c1 :: c2 :: c3 :: rest => c1 == 'F' && c2 == 'U' && c3 == 'N' && nDigitsThenEnd 9 rest
  | _ => false

/-- Embeds `PayloadValidator.validate_datetime_format`: true iff the
datetime carries timezone information. -/
def validate_datetime_format (dt : PyDatetime) : Bool := dt.aware

/-- Embeds `PayloadValidator.validate_paging_params` on a parameter
dictionary `{page, pageSize, totalElements, totalPages}` whose four keys are
present and integer-valued (the only shape the library ever passes in;
with all keys present and `int` values neither the key check nor the
`TypeError` branch can fire). -/
def validate_paging_params (page pageSize totalElements totalPages : Int) : Bool :=
  if page < 0 then false
  else if pageSize ≤ 0 then false
  else if totalElements < 0 then false
  else if totalPages < 0 then false
  else if totalPages > 0 ∧ page ≥ totalPages then false
  else true

/-- Embeds the frozen dataclass `ErrorCode`
(`src/funapis_response/error_codes/base.py`): a code string, a severity and
a message template.  Registration (`__post_init__`) is modelled separately
by `mkErrorCode`, which threads the class-level registry explicitly. -/
structure ErrorCode where
  code : String
  severity : ErrorSeverity
  message_template : String
deriving DecidableEq, Repr

/-- The class-level registry `ErrorCode._registry`, a process-wide mapping
from code strings to instances, modelled as a function. -/
def Registry := String → Option ErrorCode

/-- The registry before any `ErrorCode` has been constructed. -/
def emptyRegistry : Registry := fun _ => Option.none

/-- Embeds `ErrorCode._validate_code_format`
(`src/funapis_response/error_codes/base.py`): the same
`FUN` + 9 digits + `$` regex as `PayloadValidator.validate_error_code`. -/
def ErrorCode.validate_code_format (code : String) : Bool :=
  validate_error_code code

/-- Embeds `ErrorCode(code, severity, message_template)` including
`__post_init__`: validate the code format, raising `ValueError` (and
leaving the registry untouched) on failure, otherwise register the new
instance under its code, overwriting any previous entry. -/
def mkErrorCode (code : String) (severity : ErrorSeverity)
    (message_template : String) (reg : Registry) :
    Except String ErrorCode × Registry :=
  if ErrorCode.validate_code_format code then
    let ec : ErrorCode := ⟨code, severity, message_template⟩
    (Except.ok ec, fun k => if k = code then some ec else reg k)
  else
    (Except.error ("Invalid error code format: " ++ code ++
      ". Must be in FUNxxyyzzz format."), reg)

/-- Embeds `ErrorCode.get_by_code`: dictionary lookup returning `None` when
the code is absent. -/
def ErrorCode.get_by_code (reg : Registry) (code : String) : Option ErrorCode :=
  reg code

/-- Embeds `ErrorCodeRegistry.get_by_code`
(`src/funapis_response/error_codes/registry.py`), which delegates to
`ErrorCode.get_by_code`. -/
def ErrorCodeRegistry.get_by_code (reg : Registry) (code : String) : Option ErrorCode :=
  ErrorCode.get_by_code reg code

/-- The ways `str.format` can fail on the templates of this library:
a missing keyword (`KeyError`, carrying the missing key), an automatic
positional field with no positional argument (`IndexError`), or a malformed
template (`ValueError`). -/
inductive FormatFailure
  | keyError (k : String)
  | indexError
  | valueError
deriving DecidableEq, Repr

/-- First binding of a key in a keyword-argument list (`kwargs[k]`). -/
def lookupParam (params : List (String × String)) (k : String) : Option String :=
  match params with
  | [] => Option.none
  | (k2, v) :: rest => if k2 = k then some v else lookupParam rest k

/-- Core of the `str.format(**kwargs)` model: scans the template; in
literal mode `\x7b\x7b` and `\x7d\x7d` are escapes, `\x7b` opens a
replacement field and a lone `\x7d` is a `ValueError`; in field mode
(second argument `some acc`, `acc` holding the reversed field name) a
`\x7d` closes the field, substituting the named argument, an empty field
name is an automatic positional field (an `IndexError` here, since the
library never passes positional arguments), an unknown name is a
`KeyError`, and a nested `\x7b` or an unterminated field is a
`ValueError`. -/
def pyFormatGo (params : List (String × String)) :
    List Char → Option (List Char) → Except FormatFailure String
  | [], Option.none => Except.ok ""
  | [], some _ => Except.error FormatFailure.valueError
  | '{' :: '{' :: rest, Option.none =>
      (pyFormatGo params rest Option.none).map (fun s => "\x7b" ++ s)
  | '}' :: '}' :: rest, Option.none =>
      (pyFormatGo params rest Option.none).map (fun s => "\x7d" ++ s)
  | '{' :: rest, Option.none => pyFormatGo params rest (some [])
  | '}' :: _, Option.none => Except.error FormatFailure.valueError
  | c :: rest, Option.none =>
      (pyFormatGo params rest Option.none).map (fun s => String.mk [c] ++ s)
  | '}' :: rest, some acc =>
      if acc.isEmpty then Except.error FormatFailure.indexError
      else
        match lookupParam params (String.mk acc.reverse) with
        | some v => (pyFormatGo params rest Option.none).map (fun s => v ++ s)
        | Option.none => Except.error (FormatFailure.keyError (String.mk acc.reverse))
  | '{' :: _, some _ => Except.error FormatFailure.valueError
  | c :: rest, some acc => pyFormatGo params rest (some (c :: acc))

/-- Model of `template.format(**params)` for string-valued keyword
arguments: the rendered string, or the first failure. -/
def pyFormat (params : List (String × String)) (template : String) :
    Except FormatFailure String :=
  pyFormatGo params template.data Option.none

/-- The text appended by the `except KeyError` branch of
`ErrorCode.get_message`: in `f"... (缺少格式化參數: \x7be\x7d)"` the
`KeyError` renders as the quoted missing key. -/
def missingKeyNote (k : String) : String :=
  " (缺少格式化參數: \x27" ++ k ++ "\x27)"

/-- Embeds `ErrorCode.get_message(**kwargs)`
(`src/funapis_response/error_codes/base.py`): try to render the template;
on `KeyError` return the raw template plus a note naming the missing key;
on any other failure return the raw template. -/
def ErrorCode.get_message (ec : ErrorCode) (params : List (String × String)) : String :=
  match pyFormat params ec.message_template with
  | Except.ok s => s
  | Except.error (FormatFailure.keyError k) => ec.message_template ++ missingKeyNote k
  | Except.error FormatFailure.indexError => ec.message_template
  | Except.error FormatFailure.valueError => ec.message_template

/-- Embeds `CommonErrorCodes.SUCCESS`
(`src/funapis_response/error_codes/common.py`). -/
def CommonErrorCodes.SUCCESS : ErrorCode :=
  ⟨"FUN006600001", ErrorSeverity.INFO, "操作成功"⟩

/-- Embeds `CommonErrorCodes.ENTITY_NOT_FOUND_ERROR`. -/
def CommonErrorCodes.ENTITY_NOT_FOUND_ERROR : ErrorCode :=
  ⟨"FUN999800001", ErrorSeverity.WARNING, "找不到指定的資料列：{entity_id}"⟩

/-- Embeds `CommonErrorCodes.VALIDATION_ERROR`. -/
def CommonErrorCodes.VALIDATION_ERROR : ErrorCode :=
  ⟨"FUN999999993", ErrorSeverity.WARNING, "參數驗證失敗: {reason}"⟩

/-- Embeds `CommonErrorCodes.API_ERROR`. -/
def CommonErrorCodes.API_ERROR : ErrorCode :=
  ⟨"FUN999999994", ErrorSeverity.ERROR, "API 調用錯誤: {message}"⟩

/-- Builder-local state of `PagingPayloadBuilder`
(`src/funapis_response/core/builder.py`); all fields start unset. -/
structure PagingPayloadBuilder where
  page : Option Int := Option.none
  page_size : Option Int := Option.none
  total_elements : Option Int := Option.none
  total_pages : Option Int := Option.none
  orders : List OrderingPayload := []

/-- Embeds `PagingPayloadBuilder.with_page`: rejects a negative page. -/
def PagingPayloadBuilder.with_page (b : PagingPayloadBuilder) (page : Int) :
    Except String PagingPayloadBuilder :=
  if page < 0 then Except.error "Page number cannot be negative"
  else Except.ok { b with page := some page }

/-- Embeds `PagingPayloadBuilder.with_page_size`: rejects a non-positive
page size. -/
def PagingPayloadBuilder.with_page_size (b : PagingPayloadBuilder) (page_size : Int) :
    Except String PagingPayloadBuilder :=
  if page_size ≤ 0 then Except.error "Page size must be positive"
  else Except.ok { b with page_size := some page_size }

/-- Embeds `PagingPayloadBuilder.with_total_elements`: rejects a negative
total. -/
def PagingPayloadBuilder.with_total_elements (b : PagingPayloadBuilder) (total_elements : Int) :
    Except String PagingPayloadBuilder :=
  if total_elements < 0 then Except.error "Total elements cannot be negative"
  else Except.ok { b with total_elements := some total_elements }

/-- Embeds `PagingPayloadBuilder.with_total_pages`: rejects a negative
count. -/
def PagingPayloadBuilder.with_total_pages (b : PagingPayloadBuilder) (total_pages : Int) :
    Except String PagingPayloadBuilder :=
  if total_pages < 0 then Except.error "Total pages cannot be negative"
  else Except.ok { b with total_pages := some total_pages }

/-- The `ValueError` text produced by `PagingPayloadBuilder.build` when
`validate_paging_params` rejects the four fields. -/
def invalidPagingMsg (page pageSize totalElements totalPages : Int) : String :=
  "Invalid paging parameters: page=" ++ toString page ++
  ", pageSize=" ++ toString pageSize ++
  ", totalElements=" ++ toString totalElements ++
  ", totalPages=" ++ toString totalPages

/-- Embeds `PagingPayloadBuilder.build`: all four scalar fields must be
set, then they are re-validated together via
`PayloadValidator.validate_paging_params`, then the payload is assembled
with the accumulated orders. -/
def PagingPayloadBuilder.build (b : PagingPayloadBuilder) : Except String PagingPayload :=
  if b.page.isNone || b.page_size.isNone || b.total_elements.isNone || b.total_pages.isNone then
    Except.error "All paging fields must be set"
  else
    let page := b.page.getD 0
    let page_size := b.page_size.getD 0
    let total_elements := b.total_elements.getD 0
    let total_pages := b.total_pages.getD 0
    if !(validate_paging_params page page_size total_elements total_pages) then
      Except.error (invalidPagingMsg page page_size total_elements total_pages)
    else
      Except.ok ⟨page, page_size, total_elements, total_pages, b.orders⟩

/-- The full chained construction
`PagingPayloadBuilder().with_page(page).with_page_size(size)
.with_total_elements(total).with_total_pages(pages).build()`:
the first `ValueError` raised at a setter or at `build()` aborts the chain. -/
def buildPaging (page size total pages : Int) : Except String PagingPayload := do
  let b : PagingPayloadBuilder := {}
  let b ← b.with_page page
  let b ← b.with_page_size size
  let b ← b.with_total_elements total
  let b ← b.with_total_pages pages
  b.build

/-- Builder-local state of `ResponsePayloadBuilder`
(`src/funapis_response/core/builder.py`).  In Python `__init__` draws a
fresh `uuid4()` and `datetime.now(ZoneInfo(...))`; those two
environment-supplied values are the `message_id` and `message_datetime`
fields of the initial state made by `ResponsePayloadBuilder.init`. -/
structure ResponsePayloadBuilder where
  message_id : String
  message_datetime : PyDatetime
  error_code : Option String := Option.none
  error_desc : Option String := Option.none
  data : PyValue := PyValue.none
  paging : Option PagingPayload := Option.none
  stack_trace : Option String := Option.none

/-- Embeds `ResponsePayloadBuilder.__init__` with the freshly generated
message id and current timestamp supplied by the environment. -/
def ResponsePayloadBuilder.init (mid : String) (mdt : PyDatetime) : ResponsePayloadBuilder :=
  { message_id := mid, message_datetime := mdt }

/-- Embeds `ResponsePayloadBuilder.with_error_code`: re-validates the
`FUNxxyyzzz` pattern and rejects a malformed code. -/
def ResponsePayloadBuilder.with_error_code (b : ResponsePayloadBuilder) (error_code : String) :
    Except String ResponsePayloadBuilder :=
  if !(validate_error_code error_code) then
    Except.error ("Invalid error code format: " ++ error_code ++
      ". Must be in FUNxxyyzzz format.")
  else Except.ok { b with error_code := some error_code }

/-- Embeds `ResponsePayloadBuilder.with_error_desc`. -/
def ResponsePayloadBuilder.with_error_desc (b : ResponsePayloadBuilder) (error_desc : String) :
    ResponsePayloadBuilder :=
  { b with error_desc := some error_desc }

/-- Embeds `ResponsePayloadBuilder.with_data`. -/
def ResponsePayloadBuilder.with_data (b : ResponsePayloadBuilder) (data : PyValue) :
    ResponsePayloadBuilder :=
  { b with data := data }

/-- Embeds `ResponsePayloadBuilder.with_paging`. -/
def ResponsePayloadBuilder.with_paging (b : ResponsePayloadBuilder) (paging : PagingPayload) :
    ResponsePayloadBuilder :=
  { b with paging := some paging }

/-- Embeds `ResponsePayloadBuilder.with_stack_trace`. -/
def ResponsePayloadBuilder.with_stack_trace (b : ResponsePayloadBuilder) (stack_trace : String) :
    ResponsePayloadBuilder :=
  { b with stack_trace := some stack_trace }

/-- Embeds `ResponsePayloadBuilder.build`: `if not self._error_code or not
self._error_desc` — a missing OR empty code/description (Python
truthiness) raises; otherwise the immutable payload is assembled. -/
def ResponsePayloadBuilder.build (b : ResponsePayloadBuilder) : Except String ResponsePayload :=
  if !(pyOptStrTruthy b.error_code) || !(pyOptStrTruthy b.error_desc) then
    Except.error "Error code and description are required"
  else
    Except.ok
      { message_id := b.message_id
        message_datetime := b.message_datetime
        error_code := b.error_code.getD ""
        error_desc := b.error_desc.getD ""
        data := b.data
        paging := b.paging
        stack_trace := b.stack_trace }

/-- Embeds `FunAPIException` (`src/funapis_response/exceptions/base.py`).
`message_params` is the keyword-argument mapping, with each value given by
the string `str.format` would substitute for it; `message` is the rendered
message computed once at construction. -/
structure FunAPIException where
  error_code : ErrorCode
  message_params : List (String × String)
  data : PyValue
  stack_trace : Option String
  message : String

/-- Embeds `FunAPIException.__init__(error_code, message_params, data,
stack_trace)`: stores the four fields and renders the message immediately
via the code's template. -/
def mkFunAPIException (error_code : ErrorCode) (message_params : List (String × String))
    (data : PyValue) (stack_trace : Option String) : FunAPIException :=
  { error_code := error_code
    message_params := message_params
    data := data
    stack_trace := stack_trace
    message := error_code.get_message message_params }

/-- Embeds `FunAPIException.to_response_payload`: a fresh builder (whose
environment-supplied id and timestamp are the `mid`/`mdt` arguments), then
`with_error_code`, `with_error_desc`, `with_data` only if `self.data` is
truthy, `with_stack_trace` only if `self.stack_trace` is truthy, then
`build()`. -/
def FunAPIException.to_response_payload (e : FunAPIException)
    (mid : String) (mdt : PyDatetime) : Except String ResponsePayload := do
  let b := ResponsePayloadBuilder.init mid mdt
  let b ← b.with_error_code e.error_code.code
  let b := b.with_error_desc e.message
  let b := if e.data.truthy then b.with_data e.data else b
  let b := match e.stack_trace with
    | some st => if !(st == "") then b.with_stack_trace st else b
    | Option.none => b
  b.build

/-- The display text of Python `str(\x7b x \x7d)`, the one-element set the
source builds in `EntityNotFoundError.__init__` by writing
`\x7bentity_name\x7d` where it plainly meant the plain string. -/
def pySingletonSetStr (x : String) : String := "\x7b\x27" ++ x ++ "\x27\x7d"

/-- Embeds `ValidationError(reason, data, include_trace)`
(`src/funapis_response/exceptions/api_exceptions.py`): binds
`VALIDATION_ERROR` with `message_params = \x7b"reason": reason\x7d`;
`current_trace` is the ambient `traceback.format_exc()` captured when
`include_trace` is set. -/
def ValidationErrorExc (reason : String) (data : PyValue) (include_trace : Bool)
    (current_trace : String) : FunAPIException :=
  mkFunAPIException CommonErrorCodes.VALIDATION_ERROR [("reason", reason)] data
    (if include_trace then some current_trace else Option.none)

/-- Embeds `EntityNotFoundError(identifier, entity_name, data,
include_trace)`: binds `ENTITY_NOT_FOUND_ERROR` with
`message_params = \x7b"entity_name": \x7bentity_name\x7d, "identifier":
identifier\x7d` — note the parameter names, and that the `entity_name`
value is a one-element set (represented here by its display text; it is
never substituted, because the template's only placeholder is
`entity_id`). -/
def EntityNotFoundErrorExc (identifier entity_name : String) (data : PyValue)
    (include_trace : Bool) (current_trace : String) : FunAPIException :=
  mkFunAPIException CommonErrorCodes.ENTITY_NOT_FOUND_ERROR
    [("entity_name", pySingletonSetStr entity_name), ("identifier", identifier)] data
    (if include_trace then some current_trace else Option.none)

/-- Modelled from the spec: `ResponsePayloadBuilder.success` is called by
the repository's tests (`tests/test_builder_extensions.py`) and examples
but its definition is not under `src/`.  Spec §4.4: "a success shortcut
sets a predefined success code/description and optional data in one call";
the predefined code is `CommonErrorCodes.SUCCESS` and the description is
its rendered template.  `mid`/`mdt` are the fresh id and timestamp the
underlying builder draws from the environment. -/
def ResponsePayloadBuilder.success (mid : String) (mdt : PyDatetime)
    (data : PyValue := PyValue.none) : ResponsePayloadBuilder :=
  { ResponsePayloadBuilder.init mid mdt with
    error_code := some CommonErrorCodes.SUCCESS.code
    error_desc := some (CommonErrorCodes.SUCCESS.get_message [])
    data := data }

/-- Spec-side definition, following the spec's words for claim C3: `s`
consists of the literal characters `FUN` followed by exactly 9 decimal
digits and nothing else. -/
def specExactFUN9 (s : String) : Bool :=
  match s.data with
  | c1 :: c2 :: c3 :: rest =>
      c1 == 'F' && c2 == 'U' && c3 == 'N' && rest.length == 9 && rest.all Char.isDigit
  | _ => false

theorem nDigitsThenEnd_iff (n : Nat) (cs : List Char) :
    nDigitsThenEnd n cs = true ↔
    ∃ ds : List Char, ds.length = n ∧ (∀ c ∈ ds, pyIsDigit c = true) ∧
      (cs = ds ∨ cs = ds ++ ['\n']) := by
  induction n generalizing cs with
  | zero =>
    constructor
    · intro h
      refine ⟨[], rfl, by simp, ?_⟩
      match cs, h with
      | [], _ => exact Or.inl rfl
      | [c], h =>
        simp only [nDigitsThenEnd, pyDollarAnchor, beq_iff_eq] at h
        exact Or.inr (by simp [h])
    · rintro ⟨ds, hlen, -, hcs | hcs⟩
      · subst hcs
        rw [List.length_eq_zero] at hlen
        subst hlen
        rfl
      · subst hcs
        rw [List.length_eq_zero] at hlen
        subst hlen
        rfl
  | succ n ih =>
    cases cs with
    | nil =>
      refine iff_of_false (by simp [nDigitsThenEnd]) ?_
      rintro ⟨ds, hlen, -, hcs | hcs⟩
      · exact absurd (congrArg List.length hcs.symm) (by simp [hlen])
      · exact absurd (congrArg List.length hcs.symm) (by simp [hlen])
    | cons c cs' =>
      simp only [nDigitsThenEnd, Bool.and_eq_true, ih]
      constructor
      · rintro ⟨hd, ds, hlen, hall, hcs⟩
        refine ⟨c :: ds, by simp [hlen], ?_, ?_⟩
        · intro x hx
          rcases List.mem_cons.mp hx with h | h
          · exact h ▸ hd
          · exact hall x h
        · rcases hcs with h | h
          · exact Or.inl (by simp [h])
          · exact Or.inr (by simp [h])
      · rintro ⟨ds, hlen, hall, hcs⟩
        rcases hcs with h | h
        · subst h
          exact ⟨hall c (by simp), cs', by simpa using hlen,
            fun x hx => hall x (by simp [hx]), Or.inl rfl⟩
        · cases ds with
          | nil => simp at hlen
          | cons d ds2 =>
            rw [List.cons_append] at h
            injection h with h1 h2
            subst h1
            exact ⟨hall c (by simp), ds2, by simpa using hlen,
              fun x hx => hall x (by simp [hx]), Or.inr h2⟩

theorem specExactFUN9_data {t : String} (h : specExactFUN9 t = true) :
    ∃ ds : List Char, ds.length = 9 ∧ (∀ c ∈ ds, Char.isDigit c = true) ∧
      t.data = 'F' :: 'U' :: 'N' :: ds := by
  obtain ⟨cs⟩ := t
  rcases cs with _ | ⟨c1, _ | ⟨c2, _ | ⟨c3, rest⟩⟩⟩
  · simp [specExactFUN9] at h
  · simp [specExactFUN9] at h
  · simp [specExactFUN9] at h
  · simp only [specExactFUN9, Bool.and_eq_true, beq_iff_eq, List.all_eq_true] at h
    obtain ⟨⟨⟨⟨rfl, rfl⟩, rfl⟩, h9⟩, hdig⟩ := h
    exact ⟨rest, h9, fun c hc => hdig c hc, rfl⟩

theorem specExactFUN9_mk {ds : List Char} (h9 : ds.length = 9)
    (hdig : ∀ c ∈ ds, Char.isDigit c = true) :
    specExactFUN9 (String.mk ('F' :: 'U' :: 'N' :: ds)) = true := by
  simp only [specExactFUN9, List.all_eq_true, h9]
  simp only [beq_self_eq_true, Bool.true_and, Bool.and_eq_true, List.all_eq_true]
  exact hdig

/-- Claim C3 (amended): `validate_error_code s` is true iff `s` is the
literal `FUN` followed by exactly 9 decimal digits, either alone or
followed by one trailing newline — under `re.match`, the `$` anchor of the
pattern also matches just before a final newline. -/
theorem validate_error_code_iff_exact_or_trailing_newline (s : String) :
    validate_error_code s = true ↔
    (specExactFUN9 s = true ∨ ∃ t : String, specExactFUN9 t = true ∧ s = t ++ "\n") := by
  constructor
  · intro h
    obtain ⟨cs⟩ := s
    rcases cs with _ | ⟨c1, _ | ⟨c2, _ | ⟨c3, rest⟩⟩⟩
    · simp [validate_error_code] at h
    · simp [validate_error_code] at h
    · simp [validate_error_code] at h
    · simp only [validate_error_code, Bool.and_eq_true, beq_iff_eq] at h
      obtain ⟨⟨⟨rfl, rfl⟩, rfl⟩, hrest⟩ := h
      rw [nDigitsThenEnd_iff] at hrest
      obtain ⟨ds, hlen, hdig, hcs | hcs⟩ := hrest
      · subst hcs
        exact Or.inl (specExactFUN9_mk hlen (fun c hc => hdig c hc))
      · refine Or.inr ⟨String.mk ('F' :: 'U' :: 'N' :: ds),
          specExactFUN9_mk hlen (fun c hc => hdig c hc), ?_⟩
        apply String.ext
        simp [String.data_append, hcs]
  · rintro (h | ⟨t, ht, rfl⟩)
    · obtain ⟨ds, hlen, hdig, hdata⟩ := specExactFUN9_data h
      simp only [validate_error_code, hdata, beq_self_eq_true, Bool.true_and]
      exact (nDigitsThenEnd_iff 9 _).mpr ⟨ds, hlen, fun c hc => hdig c hc, Or.inl rfl⟩
    · obtain ⟨ds, hlen, hdig, hdata⟩ := specExactFUN9_data ht
      simp only [validate_error_code, String.data_append, hdata, List.cons_append]
      show ('F' == 'F' && 'U' == 'U' && 'N' == 'N' && nDigitsThenEnd 9 (ds ++ ['\n'])) = true
      simp only [beq_self_eq_true, Bool.true_and]
      exact (nDigitsThenEnd_iff 9 _).mpr ⟨ds, hlen, fun c hc => hdig c hc, Or.inr rfl⟩

/-- Claim C3 (counterexample): the string `FUN123456789` followed by a
newline is accepted by `validate_error_code` although it is not `FUN` plus
9 digits and nothing else. -/
theorem validate_error_code_newline_counterexample :
    validate_error_code "FUN123456789\n" = true ∧
    specExactFUN9 "FUN123456789\n" = false := by
  exact ⟨by decide, by decide⟩

/-- Claim C1 (amended): for every payload and level, `to_dict(user_level)`
contains the key `stackTrace` iff a truthy (non-`None`, non-empty) stack
trace was recorded on the payload and the level is exactly `DEVELOPER`;
for every level other than `DEVELOPER` the output is identical to
serializing the same payload with no trace recorded. -/
theorem stackTrace_iff_truthy_trace_and_developer (p : ResponsePayload) (lvl : UserLevel) :
    (hasKey (p.to_dict lvl) "stackTrace" = true ↔
      (pyOptStrTruthy p.stack_trace = true ∧ lvl = UserLevel.DEVELOPER))
    ∧ (lvl ≠ UserLevel.DEVELOPER →
        p.to_dict lvl = ResponsePayload.to_dict { p with stack_trace := Option.none } lvl) := by
  obtain ⟨mid, mdt, ec, ed, data, paging, st⟩ := p
  constructor
  · simp only [ResponsePayload.to_dict, hasKey, List.any_append]
    cases paging <;> cases lvl <;> rcases data <;> rcases st <;> simp [pyOptStrTruthy]
  · intro h
    cases lvl <;> simp [ResponsePayload.to_dict] at h ⊢

/-- A concrete payload with the empty string recorded as its stack trace. -/
def emptyTracePayload : ResponsePayload :=
  { message_id := "8c1cdd92-0000-0000-0000-000000000000"
    message_datetime := ⟨"2024-01-01T00:00:00+08:00", true⟩
    error_code := "FUN006600001"
    error_desc := "ok"
    stack_trace := some "" }

/-- Claim C1 (counterexample): a payload on which a stack trace was
recorded (the empty string, so `_stack_trace` is not `None`) serialized at
`DEVELOPER` level does NOT contain the `stackTrace` key: the emission test
is Python truthiness, not "was recorded". -/
theorem stackTrace_recorded_developer_counterexample :
    emptyTracePayload.stack_trace.isSome = true ∧
    hasKey (emptyTracePayload.to_dict UserLevel.DEVELOPER) "stackTrace" = false := by
  exact ⟨rfl, by decide⟩

/-- Claim C1 (witness): the amended theorem applied to the concrete
payload at `GENERAL_USER` level. -/
theorem stackTrace_iff_truthy_trace_and_developer_witness :
    (hasKey (emptyTracePayload.to_dict UserLevel.GENERAL_USER) "stackTrace" = true ↔
      (pyOptStrTruthy emptyTracePayload.stack_trace = true ∧
        UserLevel.GENERAL_USER = UserLevel.DEVELOPER))
    ∧ emptyTracePayload.to_dict UserLevel.GENERAL_USER =
        ResponsePayload.to_dict { emptyTracePayload with stack_trace := Option.none }
          UserLevel.GENERAL_USER :=
  ⟨(stackTrace_iff_truthy_trace_and_developer emptyTracePayload UserLevel.GENERAL_USER).1,
   (stackTrace_iff_truthy_trace_and_developer emptyTracePayload UserLevel.GENERAL_USER).2
     (by decide)⟩

/-- Claim C4: the chained paging construction
`with_page / with_page_size / with_total_elements / with_total_pages /
build` succeeds iff `page ≥ 0 ∧ size > 0 ∧ total ≥ 0 ∧ pages ≥ 0 ∧
(pages = 0 ∨ page < pages)`, and every failure carries one of the
builder's constraint-violation messages. -/
theorem buildPaging_ok_iff (page size total pages : Int) :
    ((buildPaging page size total pages).isOk = true ↔
      (0 ≤ page ∧ 0 < size ∧ 0 ≤ total ∧ 0 ≤ pages ∧ (pages = 0 ∨ page < pages)))
    ∧ (∀ msg, buildPaging page size total pages = Except.error msg →
        msg = "Page number cannot be negative" ∨
        msg = "Page size must be positive" ∨
        msg = "Total elements cannot be negative" ∨
        msg = "Total pages cannot be negative" ∨
        msg = invalidPagingMsg page size total pages) := by
  have heq : buildPaging page size total pages =
      if page < 0 then Except.error "Page number cannot be negative"
      else if size ≤ 0 then Except.error "Page size must be positive"
      else if total < 0 then Except.error "Total elements cannot be negative"
      else if pages < 0 then Except.error "Total pages cannot be negative"
      else if pages > 0 ∧ page ≥ pages then
        Except.error (invalidPagingMsg page size total pages)
      else Except.ok ⟨page, size, total, pages, []⟩ := by
    simp only [buildPaging, bind, Except.bind, PagingPayloadBuilder.with_page,
      PagingPayloadBuilder.with_page_size, PagingPayloadBuilder.with_total_elements,
      PagingPayloadBuilder.with_total_pages]
    split_ifs with h1 h2 h3 h4 h5 <;>
      simp_all [PagingPayloadBuilder.build, validate_paging_params]
  rw [heq]
  constructor
  · split_ifs with h1 h2 h3 h4 h5 <;> simp [Except.isOk, Except.toBool] <;> omega
  · intro msg
    split_ifs with h1 h2 h3 h4 h5 <;> intro h <;>
      first
      | exact h.elim
      | exact Except.noConfusion h
      | (injection h with h; subst h; simp)

/-- Claim C4 (witness): the theorem applied at the spec's scenario
`page=5, totalPages=5` (with `pageSize=10, totalElements=100`), whose
build fails with the paging-constraint message. -/
theorem buildPaging_ok_iff_witness :
    ((buildPaging 5 10 100 5).isOk = true ↔
      (0 ≤ (5 : Int) ∧ 0 < (10 : Int) ∧ 0 ≤ (100 : Int) ∧ 0 ≤ (5 : Int) ∧
        ((5 : Int) = 0 ∨ (5 : Int) < 5)))
    ∧ (invalidPagingMsg 5 10 100 5 = "Page number cannot be negative" ∨
       invalidPagingMsg 5 10 100 5 = "Page size must be positive" ∨
       invalidPagingMsg 5 10 100 5 = "Total elements cannot be negative" ∨
       invalidPagingMsg 5 10 100 5 = "Total pages cannot be negative" ∨
       invalidPagingMsg 5 10 100 5 = invalidPagingMsg 5 10 100 5) :=
  ⟨(buildPaging_ok_iff 5 10 100 5).1,
   (buildPaging_ok_iff 5 10 100 5).2 (invalidPagingMsg 5 10 100 5) rfl⟩

/-- Claim C5: `get_message` is total (never raises) and its result is
determined by the outcome of rendering the template: a successful render
is returned as is; a missing placeholder (`KeyError`) yields the
unrendered template concatenated with the note naming the missing key;
any other rendering failure yields the raw template unchanged. -/
theorem get_message_never_raises_cases (ec : ErrorCode) (params : List (String × String)) :
    (∀ s, pyFormat params ec.message_template = Except.ok s →
        ec.get_message params = s)
    ∧ (∀ k, pyFormat params ec.message_template = Except.error (FormatFailure.keyError k) →
        ec.get_message params = ec.message_template ++ missingKeyNote k)
    ∧ (∀ e, pyFormat params ec.message_template = Except.error e →
        (∀ k, e ≠ FormatFailure.keyError k) →
        ec.get_message params = ec.message_template) := by
  refine ⟨?_, ?_, ?_⟩
  · intro s hs
    simp [ErrorCode.get_message, hs]
  · intro k hk
    simp [ErrorCode.get_message, hk]
  · intro e he hne
    rcases e with k | _ | _
    · exact absurd rfl (hne k)
    · simp [ErrorCode.get_message, he]
    · simp [ErrorCode.get_message, he]

/-- Claim C5 (witness): rendering `ENTITY_NOT_FOUND_ERROR`'s template with
no parameters hits the missing placeholder `entity_id` and returns the raw
template plus the note naming it. -/
theorem get_message_never_raises_cases_witness :
    CommonErrorCodes.ENTITY_NOT_FOUND_ERROR.get_message [] =
      CommonErrorCodes.ENTITY_NOT_FOUND_ERROR.message_template ++ missingKeyNote "entity_id" :=
  (get_message_never_raises_cases CommonErrorCodes.ENTITY_NOT_FOUND_ERROR []).2.1
    "entity_id" rfl

/-- Claim C6: constructing an `ErrorCode` whose code string fails the
`FUN` + 9 digits pattern raises at construction with the format error, the
registry is left unchanged, and when the code was absent before, a
subsequent lookup still returns the explicit absent result `None`. -/
theorem mkErrorCode_invalid_rejected_registry_unchanged (code : String)
    (sev : ErrorSeverity) (tmpl : String) (reg : Registry)
    (h : ErrorCode.validate_code_format code = false) :
    (mkErrorCode code sev tmpl reg).1 =
      Except.error ("Invalid error code format: " ++ code ++ ". Must be in FUNxxyyzzz format.")
    ∧ (mkErrorCode code sev tmpl reg).2 = reg
    ∧ (reg code = Option.none →
        ErrorCodeRegistry.get_by_code (mkErrorCode code sev tmpl reg).2 code = Option.none) := by
  simp [mkErrorCode, h, ErrorCodeRegistry.get_by_code, ErrorCode.get_by_code]

/-- Claim C6 (witness): the theorem applied to the spec's example code
`INVALID` over the empty registry. -/
theorem mkErrorCode_invalid_rejected_registry_unchanged_witness :
    ((mkErrorCode "INVALID" ErrorSeverity.ERROR "Invalid code" emptyRegistry).1 =
      Except.error ("Invalid error code format: " ++ "INVALID" ++
        ". Must be in FUNxxyyzzz format.")
    ∧ (mkErrorCode "INVALID" ErrorSeverity.ERROR "Invalid code" emptyRegistry).2 = emptyRegistry
    ∧ ErrorCodeRegistry.get_by_code
        (mkErrorCode "INVALID" ErrorSeverity.ERROR "Invalid code" emptyRegistry).2 "INVALID" =
        Option.none) :=
  ⟨(mkErrorCode_invalid_rejected_registry_unchanged "INVALID" ErrorSeverity.ERROR
      "Invalid code" emptyRegistry (by decide)).1,
   (mkErrorCode_invalid_rejected_registry_unchanged "INVALID" ErrorSeverity.ERROR
      "Invalid code" emptyRegistry (by decide)).2.1,
   (mkErrorCode_invalid_rejected_registry_unchanged "INVALID" ErrorSeverity.ERROR
      "Invalid code" emptyRegistry (by decide)).2.2 rfl⟩

/-- Claim C7: registering a second `ErrorCode` with a valid code already
present in the registry succeeds, replaces the prior mapping entry (which
held the first instance), and a subsequent lookup returns the newer
instance. -/
theorem mkErrorCode_reregister_returns_newer (code : String) (s1 s2 : ErrorSeverity)
    (t1 t2 : String) (reg : Registry) (h : ErrorCode.validate_code_format code = true) :
    ErrorCodeRegistry.get_by_code (mkErrorCode code s1 t1 reg).2 code = some ⟨code, s1, t1⟩
    ∧ (mkErrorCode code s2 t2 (mkErrorCode code s1 t1 reg).2).1 = Except.ok ⟨code, s2, t2⟩
    ∧ ErrorCodeRegistry.get_by_code
        (mkErrorCode code s2 t2 (mkErrorCode code s1 t1 reg).2).2 code = some ⟨code, s2, t2⟩ := by
  simp [mkErrorCode, h, ErrorCodeRegistry.get_by_code, ErrorCode.get_by_code]

/-- Claim C7 (witness): re-registering `FUN000000001` with a different
severity and template over the empty registry yields the newer instance on
lookup. -/
theorem mkErrorCode_reregister_returns_newer_witness :
    (ErrorCodeRegistry.get_by_code
        (mkErrorCode "FUN000000001" ErrorSeverity.INFO "first" emptyRegistry).2 "FUN000000001" =
      some ⟨"FUN000000001", ErrorSeverity.INFO, "first"⟩
    ∧ (mkErrorCode "FUN000000001" ErrorSeverity.ERROR "second"
        (mkErrorCode "FUN000000001" ErrorSeverity.INFO "first" emptyRegistry).2).1 =
      Except.ok ⟨"FUN000000001", ErrorSeverity.ERROR, "second"⟩
    ∧ ErrorCodeRegistry.get_by_code
        (mkErrorCode "FUN000000001" ErrorSeverity.ERROR "second"
          (mkErrorCode "FUN000000001" ErrorSeverity.INFO "first" emptyRegistry).2).2
        "FUN000000001" =
      some ⟨"FUN000000001", ErrorSeverity.ERROR, "second"⟩) :=
  mkErrorCode_reregister_returns_newer "FUN000000001" ErrorSeverity.INFO ErrorSeverity.ERROR
    "first" "second" emptyRegistry (by decide)

/-- A sample timezone-aware timestamp used to instantiate the
environment-supplied builder defaults in concrete statements. -/
def sampleDt : PyDatetime := ⟨"2024-01-01T00:00:00+08:00", true⟩

theorem to_response_payload_eq (ec : ErrorCode) (params : List (String × String))
    (data : PyValue) (st : Option String) (mid : String) (mdt : PyDatetime)
    (h1 : validate_error_code ec.code = true)
    (h2 : ec.get_message params ≠ "") :
    (mkFunAPIException ec params data st).to_response_payload mid mdt = Except.ok
      { message_id := mid, message_datetime := mdt, error_code := ec.code,
        error_desc := ec.get_message params,
        data := if data.truthy then data else PyValue.none,
        paging := Option.none,
        stack_trace := if pyOptStrTruthy st then st else Option.none } := by
  have hcode : (ec.code == "") = false := by
    rw [beq_eq_false_iff_ne]
    intro he
    rw [he] at h1
    exact absurd h1 (by decide)
  have hmsg : (ec.get_message params == "") = false := beq_eq_false_iff_ne.mpr h2
  rcases st with _ | s
  · by_cases hd : data.truthy <;>
      simp [FunAPIException.to_response_payload, mkFunAPIException, ResponsePayloadBuilder.init,
        ResponsePayloadBuilder.with_error_code, ResponsePayloadBuilder.with_error_desc,
        ResponsePayloadBuilder.with_data, ResponsePayloadBuilder.with_stack_trace,
        ResponsePayloadBuilder.build, h1, hcode, hmsg, hd, pyOptStrTruthy, bind, Except.bind]
  · by_cases hs : (s == "") = true <;> by_cases hd : data.truthy <;>
      simp [FunAPIException.to_response_payload, mkFunAPIException, ResponsePayloadBuilder.init,
        ResponsePayloadBuilder.with_error_code, ResponsePayloadBuilder.with_error_desc,
        ResponsePayloadBuilder.with_data, ResponsePayloadBuilder.with_stack_trace,
        ResponsePayloadBuilder.build, h1, hcode, hmsg, hd, hs, pyOptStrTruthy, bind, Except.bind]

/-- Claim C2 (amended): for every exception built from an error code (whose
code string passes validation) with a non-empty rendered message,
`to_response_payload()` returns a payload whose `error_code` equals the
exception's code string and whose `error_desc` equals the message rendered
from the code's template with the given parameters; its `data` equals the
exception's data when that data is truthy (Python truthiness) and is
`None` otherwise, and its stack trace equals the exception's stack trace
when that trace is a non-empty string and is absent otherwise. -/
theorem to_response_payload_fields (ec : ErrorCode) (params : List (String × String))
    (data : PyValue) (st : Option String) (mid : String) (mdt : PyDatetime)
    (h1 : validate_error_code ec.code = true)
    (h2 : ec.get_message params ≠ "") :
    ∃ p, (mkFunAPIException ec params data st).to_response_payload mid mdt = Except.ok p ∧
      p.error_code = ec.code ∧
      p.error_desc = ec.get_message params ∧
      p.data = (if data.truthy then data else PyValue.none) ∧
      p.stack_trace = (if pyOptStrTruthy st then st else Option.none) :=
  ⟨_, to_response_payload_eq ec params data st mid mdt h1 h2, rfl, rfl, rfl, rfl⟩

/-- Claim C2 (witness): the amended theorem at `VALIDATION_ERROR` with a
truthy data value and a non-empty trace, where data and trace are copied
verbatim. -/
theorem to_response_payload_fields_witness :
    ∃ p, (mkFunAPIException CommonErrorCodes.VALIDATION_ERROR [("reason", "x")]
        (PyValue.str "D") (some "trace")).to_response_payload "mid" sampleDt = Except.ok p ∧
      p.error_code = CommonErrorCodes.VALIDATION_ERROR.code ∧
      p.error_desc = CommonErrorCodes.VALIDATION_ERROR.get_message [("reason", "x")] ∧
      p.data = (if (PyValue.str "D").truthy then PyValue.str "D" else PyValue.none) ∧
      p.stack_trace = (if pyOptStrTruthy (some "trace") then some "trace" else Option.none) :=
  to_response_payload_fields CommonErrorCodes.VALIDATION_ERROR [("reason", "x")]
    (PyValue.str "D") (some "trace") "mid" sampleDt (by decide) (by decide)

/-- An exception carrying falsy-but-not-`None` data (the integer `0`) and
a recorded empty-string stack trace. -/
def falsyDataExc : FunAPIException :=
  mkFunAPIException CommonErrorCodes.VALIDATION_ERROR [("reason", "x")]
    (PyValue.int 0) (some "")

/-- Claim C2 (counterexample): `to_response_payload` does NOT copy the
data and stack trace of this exception: `if self.data:` and
`if self.stack_trace:` test Python truthiness, so the falsy data `0`
becomes `None` and the recorded empty-string trace is dropped. -/
theorem to_response_payload_falsy_data_counterexample :
    falsyDataExc.data = PyValue.int 0 ∧ falsyDataExc.stack_trace = some "" ∧
    (falsyDataExc.to_response_payload "mid" sampleDt).toOption.map
        (fun p => (p.data.isNone, p.stack_trace)) = some (true, Option.none) :=
  ⟨rfl, rfl, rfl⟩

/-- Claim C8: the builder's success shortcut sets the predefined success
code, its rendered description, and the optional data in one call:
building a success payload with data `{"id": 1}` yields a payload whose
`errorCode` equals the predefined success code and whose `data` equals
`{"id": 1}` (for any environment-supplied message id and timestamp). -/
theorem success_shortcut_payload (mid : String) (mdt : PyDatetime) :
    ∃ p, (ResponsePayloadBuilder.success mid mdt
        (PyValue.dict [("id", PyValue.int 1)])).build = Except.ok p ∧
      p.error_code = CommonErrorCodes.SUCCESS.code ∧
      p.error_desc = "操作成功" ∧
      p.data = PyValue.dict [("id", PyValue.int 1)] :=
  ⟨_, rfl, rfl, rfl, rfl⟩

/-- Claim C9 (amended): raising a validation failure with reason
`"username required"` and converting it to a payload yields `errorDesc`
equal to the rendered template `"參數驗證失敗: username required"` (the
template in the source is the Chinese `參數驗證失敗: ...`, of which the
claim's English string is a gloss) and `errorCode` equal to the
validation error code. -/
theorem validation_error_payload_desc (mid : String) (mdt : PyDatetime) :
    ∃ p, (ValidationErrorExc "username required" PyValue.none false "").to_response_payload
        mid mdt = Except.ok p ∧
      p.error_desc = "參數驗證失敗: username required" ∧
      p.error_code = CommonErrorCodes.VALIDATION_ERROR.code :=
  ⟨_, rfl, rfl, rfl⟩

/-- Claim C9 (counterexample): the payload built from
`ValidationError("username required")` has `errorDesc` equal to the
rendered Chinese template, which is not the string
`"Validation failed: username required"` the claim asserts. -/
theorem validation_error_desc_counterexample :
    ((ValidationErrorExc "username required" PyValue.none false "").to_response_payload
        "mid" sampleDt).toOption.map ResponsePayload.error_desc =
      some "參數驗證失敗: username required" ∧
    ("參數驗證失敗: username required" : String) ≠ "Validation failed: username required" :=
  ⟨rfl, by decide⟩

/-- Claim C10: for every identifier and entity name (and any data or
trace-capture policy), the message stored on a constructed
`EntityNotFoundError` equals the raw template followed by the missing-key
note naming `entity_id`: the supplied parameter names (`entity_name`,
`identifier`) do not include the template's only placeholder `entity_id`,
so a rendered message containing the identifier is never produced. -/
theorem entity_not_found_message_constant (identifier entity_name : String)
    (data : PyValue) (include_trace : Bool) (current_trace : String) :
    (EntityNotFoundErrorExc identifier entity_name data include_trace current_trace).message =
      "找不到指定的資料列：{entity_id}" ++ missingKeyNote "entity_id" := rfl
